import Mathlib

/-!
Shallow embedding of `pycheribuild/projects/cross/gdb.py`: the `BuildGDB`
and `BuildKGDB` build recipes and the `TemporarilyRemoveProgramsFromSdk`
scoped resource.  Pure data (branch tables, flag lists) is transcribed
directly from the source; the effect of each lifecycle method (`setup`,
`configure`, `compile`, `install`) is embedded as a pure function from the
inputs the method reads to the state it mutates and the external actions
(make invocations, file installs, messages) it performs.  Helpers of the
surrounding framework that are not part of this file (target-kind
predicates, the per-target branch lookup) are modelled from the spec and
marked as such in their doc comments.
-/

namespace CheriGdb

/-- Compilation-target descriptors relevant to `BuildGDB`.  The seven
supported ones are transcribed from `BuildGDB.supported_architectures`;
the purecap variants are modelled from the spec (glossary: "Purecap /
hybrid: CHERI capability-system ABI variants"), since the framework's
full target set lives outside this file. -/
inductive CompilationTarget where
  | NATIVE
  | CHERIBSD_MIPS_HYBRID
  | CHERIBSD_RISCV_HYBRID
  | CHERIBSD_MIPS_NO_CHERI
  | CHERIBSD_RISCV_NO_CHERI
  | CHERIBSD_AARCH64
  | CHERIBSD_MORELLO_HYBRID
  | CHERIBSD_MIPS_PURECAP
  | CHERIBSD_RISCV_PURECAP
  | CHERIBSD_MORELLO_PURECAP
  deriving DecidableEq

/-- CHERI ABI kind of a target.  Modelled from the spec: hybrid and
purecap are the two CHERI ABI variants, all remaining targets (and the
native host) have no CHERI ABI. -/
inductive CheriABI where
  | noCheri
  | hybrid
  | purecap
  deriving DecidableEq

open CompilationTarget in
/-- Modelled from the spec: ABI classification of each target descriptor,
read off the descriptor names (`*_HYBRID` hybrid, `*_PURECAP` purecap). -/
def cheriABI : CompilationTarget → CheriABI
  | CHERIBSD_MIPS_HYBRID => .hybrid
  | CHERIBSD_RISCV_HYBRID => .hybrid
  | CHERIBSD_MORELLO_HYBRID => .hybrid
  | CHERIBSD_MIPS_PURECAP => .purecap
  | CHERIBSD_RISCV_PURECAP => .purecap
  | CHERIBSD_MORELLO_PURECAP => .purecap
  | _ => .noCheri

/-- Modelled from the spec: `compiling_for_cheri()` of the base class holds
exactly for purecap (CHERIABI) targets. -/
def compiling_for_cheri (t : CompilationTarget) : Bool :=
  cheriABI t == .purecap

/-- Modelled from the spec: `compiling_for_cheri_hybrid()` of the base class
holds exactly for hybrid targets. -/
def compiling_for_cheri_hybrid (t : CompilationTarget) : Bool :=
  cheriABI t == .hybrid

/-- Modelled from the spec: a target `is_native` (equivalently, the project
`compiling_for_host`) exactly when it is the `NATIVE` descriptor. -/
def is_native (t : CompilationTarget) : Bool :=
  t == .NATIVE

/-- `BuildGDB.supported_architectures`, transcribed from the source. -/
def supported_architectures : List CompilationTarget :=
  [.NATIVE,
   .CHERIBSD_MIPS_HYBRID, .CHERIBSD_RISCV_HYBRID,
   .CHERIBSD_MIPS_NO_CHERI, .CHERIBSD_RISCV_NO_CHERI,
   .CHERIBSD_AARCH64, .CHERIBSD_MORELLO_HYBRID]

/-- `TargetBranchInfo` of the framework: a per-target branch override. -/
structure TargetBranchInfo where
  branch : String
  directory_name : String
  deriving DecidableEq

/-- The fields of the framework's `GitRepository` that this file sets. -/
structure GitRepository where
  url : String
  default_branch : String
  force_branch : Bool
  per_target_branches : List (CompilationTarget × TargetBranchInfo)
  old_urls : List String
  deriving DecidableEq

/-- `BuildGDB.repository`, transcribed from the source. -/
def BuildGDB_repository : GitRepository :=
  { url := "https://github.com/CTSRD-CHERI/gdb.git",
    default_branch := "mips_cheri-8.3",
    force_branch := true,
    per_target_branches :=
      [(.CHERIBSD_AARCH64,
        { branch := "morello-8.3", directory_name := "morello-gdb" }),
       (.CHERIBSD_MORELLO_HYBRID,
        { branch := "morello-8.3", directory_name := "morello-gdb" })],
    old_urls := ["https://github.com/bsdjhb/gdb.git"] }

/-- `BuildKGDB.repository`, transcribed from the source: note that it has
no `per_target_branches` entry at all. -/
def BuildKGDB_repository : GitRepository :=
  { url := "https://github.com/CTSRD-CHERI/gdb.git",
    default_branch := "mips_cheri-8.3-kgdb",
    force_branch := true,
    per_target_branches := [],
    old_urls := ["https://github.com/bsdjhb/gdb.git"] }

/-- Modelled from the spec: the framework's branch-selection lookup, a
"mapping from target descriptor to (branch name, checkout directory name)"
where "every target either uses the default branch or has an explicit
override".  An explicit override yields its branch and directory name; a
target without one yields the default branch and the framework-default
checkout directory, represented by `none`. -/
def branch_lookup (repo : GitRepository) (t : CompilationTarget) :
    String × Option String :=
  match repo.per_target_branches.find? (fun p => p.1 == t) with
  | some p => (p.2.branch, some p.2.directory_name)
  | none => (repo.default_branch, none)

/-- Linkage kinds relevant to `BuildGDB.__init__`. -/
inductive Linkage where
  | default_linkage
  | static
  deriving DecidableEq

/-- `BuildGDB.__init__`: for a non-native target the linkage is forced to
`Linkage.STATIC` before delegating to the superclass; after delegation the
constructor asserts that the project is not compiling for CHERI purecap
(CHERIABI).  The assertion failure is embedded as `Except.error` with the
assertion's message. -/
def gdb_init (t : CompilationTarget) : Except String Linkage :=
  let linkage := if is_native t then Linkage.default_linkage else Linkage.static
  if compiling_for_cheri t then
    Except.error "Should only build this as a static MIPS binary not CHERIABI"
  else
    Except.ok linkage

/-- Association-list view of a Python dict entry update (`d[k] = v` /
`d.update(k=v)`): any existing binding of `k` is replaced. -/
def envSet (env : List (String × String)) (k v : String) :
    List (String × String) :=
  env.filter (fun p => p.1 != k) ++ [(k, v)]

/-- Sequential dict update with several key-value pairs. -/
def envUpdate (env : List (String × String)) (kvs : List (String × String)) :
    List (String × String) :=
  kvs.foldl (fun e p => envSet e p.1 p.2) env

/-- Dict lookup: the value bound to `k`, if any. -/
def envLookup (env : List (String × String)) (k : String) : Option String :=
  (env.find? (fun p => p.1 == k)).map (fun p => p.2)

/-- The mutable per-project configuration state that `BuildGDB.setup`
appends to: configure arguments, configure environment, the warning/flag
lists, and the environment recorded on the make invocation. -/
structure ProjectState where
  configure_args : List String
  configure_environment : List (String × String)
  common_warning_flags : List String
  cross_warning_flags : List String
  CXXFLAGS : List String
  COMMON_FLAGS : List String
  LDFLAGS : List String
  make_env : List (String × String)
  deriving DecidableEq

/-- The inputs `BuildGDB.setup` reads: host-vs-cross, host OS, debug-info
request, the make command, and the path-valued configuration.
`install_prefix_dir` stands for `self.install_prefix`, `which_false` for
`shutil.which("false")`, `sys_executable` for `sys.executable`. -/
structure SetupConfig where
  compiling_for_host : Bool
  is_macos : Bool
  should_include_debug_info : Bool
  make_command : String
  install_dir : String
  install_prefix_dir : String
  sdk_bindir : String
  which_false : String
  sys_executable : String
  host_CC : String
  host_CXX : String
  deriving DecidableEq

/-- `BuildGDB.setup`, transcribed line by line from the source (the
`if False and ...` GUI block is dead code and performs nothing).
`add_configure_env_arg` is modelled from the spec as a configure-time
environment-variable assignment ("tool paths for archiver/linker/
symbol-table tools").  The final step mirrors
`self.make_args.set_env(**self.configure_environment)`. -/
def setup (cfg : SetupConfig) (st : ProjectState) : ProjectState :=
  let install_root :=
    if cfg.compiling_for_host then cfg.install_dir else cfg.install_prefix_dir
  let st := { st with configure_args := st.configure_args ++
      ["--disable-nls",
       "--enable-tui",
       if cfg.compiling_for_host then "--enable-ld=yes" else "--disable-ld",
       "--disable-gold",
       "--enable-64-bit-bfd",
       "--without-gnu-as",
       "--mandir=" ++ install_root ++ "/man",
       "--infodir=" ++ install_root ++ "/info",
       "--disable-werror",
       "MAKEINFO=" ++ cfg.which_false,
       "--with-gdb-datadir=" ++ install_root ++ "/share/gdb",
       "--disable-libstdcxx",
       "--with-guile=no"] }
  let st := if cfg.compiling_for_host && cfg.is_macos then
      { st with configure_args :=
          st.configure_args ++ ["--target=x86_64-unknown-freebsd13"] }
    else st
  let st := { st with
      common_warning_flags := st.common_warning_flags ++
        ["-Wno-mismatched-tags", "-Wno-unknown-warning-option",
         "-Werror=implicit-function-declaration"],
      CXXFLAGS := st.CXXFLAGS ++ ["-Wno-mismatched-tags"] }
  let st := if cfg.should_include_debug_info then
      { st with COMMON_FLAGS := st.COMMON_FLAGS ++ ["-g"] }
    else st
  let st := { st with
      COMMON_FLAGS := st.COMMON_FLAGS ++ ["-fcommon"],
      cross_warning_flags := st.cross_warning_flags ++
        ["-Wno-error=format", "-Wno-error=incompatible-pointer-types"],
      configure_args := st.configure_args ++ ["--enable-targets=all"] }
  let st := if cfg.compiling_for_host then
      { st with
        LDFLAGS := st.LDFLAGS ++ ["-L/usr/local/lib"],
        configure_args := st.configure_args ++
          ["--with-expat", "--with-python=" ++ cfg.sys_executable] }
    else
      { st with
        configure_args := st.configure_args ++
          ["--without-python", "--without-expat", "--without-libunwind-ia64"],
        configure_environment := envUpdate st.configure_environment
          [("gl_cv_func_gettimeofday_clobber", "no"),
           ("lt_cv_sys_max_cmd_len", "262144"),
           ("am_cv_CC_dependencies_compiler_type", "gcc3"),
           ("MAKEINFO", "/bin/false"),
           ("CONFIGURED_M4", "m4"), ("CONFIGURED_BISON", "byacc"),
           ("TMPDIR", "/tmp"), ("LIBS", "")],
        COMMON_FLAGS := st.COMMON_FLAGS ++
          ["-static", "-DRL_NO_COMPAT", "-DLIBICONV_PLUG",
           "-fno-strict-aliasing"],
        LDFLAGS := st.LDFLAGS ++ ["--static", "-lelf"] }
  let st := if cfg.make_command == "gmake" then
      { st with configure_environment :=
          envSet st.configure_environment "MAKE" "gmake" }
    else st
  let st := { st with
      configure_environment := envUpdate st.configure_environment
        [("CC_FOR_BUILD", cfg.host_CC), ("CXX_FOR_BUILD", cfg.host_CXX),
         ("CFLAGS_FOR_BUILD", "-g -fcommon"),
         ("CXXFLAGS_FOR_BUILD", "-g -fcommon")] }
  let st := if !cfg.compiling_for_host then
      { st with
        configure_environment := envUpdate st.configure_environment
          [("AR", cfg.sdk_bindir ++ "/ar"),
           ("RANLIB", cfg.sdk_bindir ++ "/ranlib"),
           ("NM", cfg.sdk_bindir ++ "/nm")] }
    else st
  { st with make_env := envUpdate st.make_env st.configure_environment }

/-- `BuildGDB.configure`: on a host build on macOS the configure
environment is cleared (`self.configure_environment.clear()`) before
delegating to the generic configure step; in every other combination the
data is passed on unchanged.  The result is the
(configure arguments, configure environment) pair seen by
`super().configure()`. -/
def configure (compiling_for_host is_macos : Bool)
    (args : List String) (env : List (String × String)) :
    List String × List (String × String) :=
  if compiling_for_host && is_macos then (args, []) else (args, env)

/-- Make targets invoked by `BuildGDB.compile`, in order, when the outcome
of each `run_make` invocation is given by `res` (`false` means a non-zero
exit, which raises and aborts the remaining invocations): `all-binutils`,
then `all-gdb`, then — only when compiling for the host — `all-ld`. -/
def compileMakeTargets (compiling_for_host : Bool) (res : String → Bool) :
    List String :=
  if res "all-binutils" = false then ["all-binutils"]
  else if res "all-gdb" = false then ["all-binutils", "all-gdb"]
  else if compiling_for_host then ["all-binutils", "all-gdb", "all-ld"]
  else ["all-binutils", "all-gdb"]

/-- Effect of `mv -f src dst` inside one directory on its file-existence
predicate: afterwards `dst` holds what `src` held and `src` is gone. -/
def mvFile (d : String → Bool) (src dst : String) : String → Bool :=
  fun n => if n = dst then d src else if n = src then false else d n

/-- Effect of `run_command("mv", "-f", src, dst, cwd=...)`: in pretend
(dry-run) mode the command is not executed and the directory is
unchanged. -/
def run_mv (pretend : Bool) (d : String → Bool) (src dst : String) :
    String → Bool :=
  if pretend then d else mvFile d src dst

/-- Loop body of `TemporarilyRemoveProgramsFromSdk.__enter__`: a program
that exists in the directory is renamed to `<name>.backup`. -/
def enterStep (pretend : Bool) (d : String → Bool) (prog : String) :
    String → Bool :=
  if d prog then run_mv pretend d prog (prog ++ ".backup") else d

/-- Loop body of `TemporarilyRemoveProgramsFromSdk.__exit__`: a
`<name>.backup` that exists (or unconditionally in pretend mode) is
renamed back to `<name>`. -/
def exitStep (pretend : Bool) (d : String → Bool) (prog : String) :
    String → Bool :=
  if d (prog ++ ".backup") || pretend then
    run_mv pretend d (prog ++ ".backup") prog
  else d

/-- `TemporarilyRemoveProgramsFromSdk.__enter__`: the rename loop over the
listed programs. -/
def shadowEnter (pretend : Bool) (programs : List String)
    (d : String → Bool) : String → Bool :=
  programs.foldl (enterStep pretend) d

/-- `TemporarilyRemoveProgramsFromSdk.__exit__`: the restore loop over the
listed programs. -/
def shadowExit (pretend : Bool) (programs : List String)
    (d : String → Bool) : String → Bool :=
  programs.foldl (exitStep pretend) d

/-- The four programs `BuildGDB.compile` shadows in `self.install_dir`. -/
def shadowedPrograms : List String := ["as", "ld", "objcopy", "objdump"]

/-- Effect of one `BuildGDB.compile` call on the shadowed directory.  The
`with` statement guarantees `__exit__` runs on every exit path — whether
every make sub-invocation succeeds or one of them raises — and the make
invocations build inside `self.build_dir`, leaving the four shadowed
entries of the directory untouched, so the directory afterwards is exactly
exit-after-enter. -/
def compileShadowedDir (pretend : Bool) (d : String → Bool) :
    String → Bool :=
  shadowExit pretend shadowedPrograms (shadowEnter pretend shadowedPrograms d)

/-- Externally visible actions of `BuildGDB.install`: a
`run_make_install` pass (with the `DESTDIR` its environment carries, if
any), a diagnostic message, or an `install_file` copy. -/
inductive InstallEvent where
  | makeInstall (tgt : String) (destdir : Option String)
  | infoMsg (msg : String)
  | installFile (src dst : String)
  deriving DecidableEq

/-- The inputs `BuildGDB.install` reads.  `purecap_rootfs` stands for the
install directory of the rootfs project of the purecap counterpart of the
current target, and `purecap_rootfs_usr_exists` for the
`(purecap_rootfs / "usr").exists()` check. -/
structure InstallConfig where
  compiling_for_host : Bool
  is_cheribsd : Bool
  compiling_for_cheri_hybrid : Bool
  purecap_rootfs : String
  purecap_rootfs_usr_exists : Bool
  make_install_env : List (String × String)
  build_dir : String
  install_dir : String
  deriving DecidableEq

/-- The tuple `binutils` of `BuildGDB.install`, transcribed from the
source. -/
def gdb_binutils : List String :=
  ["objdump", "objcopy", "addr2line", "readelf", "ar", "ranlib", "size",
   "strings"]

/-- The copies of auxiliary binutils outputs performed by
`BuildGDB.install` on a host build, as (build-directory file name,
installed file name) pairs: the loop over `binutils` installs each tool
under its `g`-prefixed name, followed by the three tools whose name in the
build directory differs (`cxxfilt`, `nm-new`, `strip-new`). -/
def auxiliaryBinutilsInstalls : List (String × String) :=
  (gdb_binutils.map fun util => (util, "g" ++ util)) ++
  [("cxxfilt", "gc++filt"), ("nm-new", "gnm"), ("strip-new", "gstrip")]

/-- How many of the auxiliary binutils copies have a build-output name
that differs from their installed name, i.e. do not follow the uniform
pattern installed-name = `"g" ++` build-name. -/
def renamedAuxiliaryCount : Nat :=
  (auxiliaryBinutilsInstalls.filter (fun p => p.2 != "g" ++ p.1)).length

/-- `BuildGDB.install`, transcribed from the source: the `install-gdb`
pass; for a CheriBSD CHERI-hybrid target the purecap second pass (guarded
by the existence of the purecap rootfs and by the assertion that `DESTDIR`
is present in the make-install environment, whose failure is embedded as
`Except.error`); and for a host build the auxiliary binutils copies plus
the two `ld-new` copies. -/
def install (cfg : InstallConfig) : Except String (List InstallEvent) :=
  let first :=
    [InstallEvent.makeInstall "install-gdb"
      (envLookup cfg.make_install_env "DESTDIR")]
  let hybridStep : Except String (List InstallEvent) :=
    if cfg.is_cheribsd && cfg.compiling_for_cheri_hybrid then
      if cfg.purecap_rootfs_usr_exists then
        if (envLookup cfg.make_install_env "DESTDIR").isSome then
          Except.ok
            [InstallEvent.infoMsg ("Also installing to " ++ cfg.purecap_rootfs),
             InstallEvent.makeInstall "install-gdb" (some cfg.purecap_rootfs)]
        else Except.error "DESTDIR must be set in install"
      else
        Except.ok
          [InstallEvent.infoMsg
            ("Not installing to purecap rootfs " ++ cfg.purecap_rootfs)]
    else Except.ok []
  let hostFiles : List InstallEvent :=
    if cfg.compiling_for_host then
      (auxiliaryBinutilsInstalls.map fun p =>
        InstallEvent.installFile (cfg.build_dir ++ "/binutils/" ++ p.1)
          (cfg.install_dir ++ "/bin/" ++ p.2)) ++
      [InstallEvent.installFile (cfg.build_dir ++ "/ld/ld-new")
         (cfg.install_dir ++ "/bin/ld.bfd"),
       InstallEvent.installFile (cfg.build_dir ++ "/ld/ld-new")
         (cfg.install_dir ++ "/bin/gld.bfd")]
    else []
  match hybridStep with
  | Except.error e => Except.error e
  | Except.ok evs => Except.ok (first ++ evs ++ hostFiles)

/-- The `run_make_install` passes among a list of install events, as
(make target, `DESTDIR`) pairs, in order. -/
def installPasses (evs : List InstallEvent) : List (String × Option String) :=
  evs.filterMap fun e =>
    match e with
    | InstallEvent.makeInstall t d => some (t, d)
    | _ => none

/-- The `install_file` copies among a list of install events, as
(source, destination) pairs, in order. -/
def installedFilePairs (evs : List InstallEvent) : List (String × String) :=
  evs.filterMap fun e =>
    match e with
    | InstallEvent.installFile s d => some (s, d)
    | _ => none

/-- A build recipe: its repository together with its four lifecycle
methods.  `BuildKGDB` subclasses `BuildGDB` overriding only `repository`,
so its recipe record differs from `BuildGDB`'s in that single field. -/
structure Recipe where
  repo : GitRepository
  setup_fn : SetupConfig → ProjectState → ProjectState
  configure_fn : Bool → Bool → List String → List (String × String) →
    List String × List (String × String)
  compile_fn : Bool → (String → Bool) → List String
  install_fn : InstallConfig → Except String (List InstallEvent)

/-- The `BuildGDB` recipe. -/
def BuildGDB_recipe : Recipe :=
  { repo := BuildGDB_repository, setup_fn := setup,
    configure_fn := configure, compile_fn := compileMakeTargets,
    install_fn := install }

/-- The `BuildKGDB` recipe: the inherited `BuildGDB` methods with only the
repository overridden. -/
def BuildKGDB_recipe : Recipe :=
  { BuildGDB_recipe with repo := BuildKGDB_repository }

/-- C3: for every supported target the branch-selection lookup of
`BuildGDB.repository` yields exactly one (branch, directory) pair —
`("morello-8.3", "morello-gdb")` for `CHERIBSD_AARCH64` and
`CHERIBSD_MORELLO_HYBRID`, and the default branch `mips_cheri-8.3` (with
the framework-default checkout directory) for every other supported
target. -/
theorem c3_branch_selection (t : CompilationTarget)
    (h : t ∈ supported_architectures) :
    branch_lookup BuildGDB_repository t =
      if t = .CHERIBSD_AARCH64 ∨ t = .CHERIBSD_MORELLO_HYBRID then
        ("morello-8.3", some "morello-gdb")
      else ("mips_cheri-8.3", none) := by
  revert h
  cases t <;> decide

/-- Witness for `c3_branch_selection` at the `CHERIBSD_AARCH64` target. -/
theorem c3_branch_selection_witness :
    CompilationTarget.CHERIBSD_AARCH64 ∈ supported_architectures ∧
    branch_lookup BuildGDB_repository CompilationTarget.CHERIBSD_AARCH64 =
      ("morello-8.3", some "morello-gdb") := by
  refine ⟨by decide, ?_⟩
  have h := c3_branch_selection CompilationTarget.CHERIBSD_AARCH64 (by decide)
  rwa [if_pos (Or.inl rfl)] at h

/-- C10: construction never aborts on the CHERIABI assertion — every
supported target is non-purecap, so `gdb_init` succeeds on each of them —
and for every non-native supported target it forces static linkage. -/
theorem c10_init_safe (t : CompilationTarget)
    (h : t ∈ supported_architectures) :
    compiling_for_cheri t = false ∧
    gdb_init t =
      Except.ok
        (if is_native t then Linkage.default_linkage else Linkage.static) := by
  revert h
  cases t <;> intro h <;>
    first
      | exact ⟨rfl, rfl⟩
      | exact absurd h (by decide)

/-- Witness for `c10_init_safe` at the `CHERIBSD_MIPS_HYBRID` target. -/
theorem c10_init_safe_witness :
    CompilationTarget.CHERIBSD_MIPS_HYBRID ∈ supported_architectures ∧
    (compiling_for_cheri CompilationTarget.CHERIBSD_MIPS_HYBRID = false ∧
     gdb_init CompilationTarget.CHERIBSD_MIPS_HYBRID =
       Except.ok
         (if is_native CompilationTarget.CHERIBSD_MIPS_HYBRID then
            Linkage.default_linkage
          else Linkage.static)) :=
  ⟨by decide,
   c10_init_safe CompilationTarget.CHERIBSD_MIPS_HYBRID (by decide)⟩

/-- C5 counterexample: at `CHERIBSD_AARCH64` the branch selection of
`BuildKGDB`'s repository differs from `BuildGDB`'s in the checkout
directory as well, not only in the branch name — `BuildGDB` selects the
`morello-gdb` override directory while `BuildKGDB`, having no per-target
overrides at all, selects the framework-default directory. -/
theorem c5_counterexample :
    (branch_lookup BuildGDB_repository CompilationTarget.CHERIBSD_AARCH64).2 ≠
      (branch_lookup BuildKGDB_repository
        CompilationTarget.CHERIBSD_AARCH64).2 := by
  decide

/-- C5 amended: `BuildKGDB` overrides only the repository — its setup,
configure, compile and install are the inherited `BuildGDB` methods
unchanged — and its branch selection yields the kernel-debugger default
branch `mips_cheri-8.3-kgdb` (with the framework-default directory) for
every supported target.  This differs from `BuildGDB`'s selection only in
the branch name, except at `CHERIBSD_AARCH64` and
`CHERIBSD_MORELLO_HYBRID`, where `BuildGDB`'s morello override makes the
checkout directory differ as well. -/
theorem c5_kgdb_refinement (t : CompilationTarget)
    (h : t ∈ supported_architectures) :
    BuildKGDB_recipe.setup_fn = BuildGDB_recipe.setup_fn ∧
    BuildKGDB_recipe.configure_fn = BuildGDB_recipe.configure_fn ∧
    BuildKGDB_recipe.compile_fn = BuildGDB_recipe.compile_fn ∧
    BuildKGDB_recipe.install_fn = BuildGDB_recipe.install_fn ∧
    branch_lookup BuildKGDB_recipe.repo t = ("mips_cheri-8.3-kgdb", none) ∧
    ((t ≠ CompilationTarget.CHERIBSD_AARCH64 ∧
      t ≠ CompilationTarget.CHERIBSD_MORELLO_HYBRID) →
      (branch_lookup BuildGDB_recipe.repo t).2 =
        (branch_lookup BuildKGDB_recipe.repo t).2) ∧
    ((t = CompilationTarget.CHERIBSD_AARCH64 ∨
      t = CompilationTarget.CHERIBSD_MORELLO_HYBRID) →
      (branch_lookup BuildGDB_recipe.repo t).2 ≠
        (branch_lookup BuildKGDB_recipe.repo t).2) := by
  refine ⟨rfl, rfl, rfl, rfl, ?_, ?_, ?_⟩ <;> revert h <;> cases t <;> decide

/-- Witness for `c5_kgdb_refinement` at the `NATIVE` target. -/
theorem c5_kgdb_refinement_witness :
    CompilationTarget.NATIVE ∈ supported_architectures ∧
    branch_lookup BuildKGDB_recipe.repo CompilationTarget.NATIVE =
      ("mips_cheri-8.3-kgdb", none) :=
  ⟨by decide,
   (c5_kgdb_refinement CompilationTarget.NATIVE (by decide)).2.2.2.2.1⟩

/-- C9: `configure` delegates with the argument list always unchanged and
clears the configure-environment mapping exactly when building for the
host on macOS; in every other host/OS combination the environment is also
passed on unchanged. -/
theorem c9_configure_passthrough (host mac : Bool) (args : List String)
    (env : List (String × String)) :
    (configure host mac args env).1 = args ∧
    (configure host mac args env).2 = (if host && mac then [] else env) := by
  cases host <;> cases mac <;> simp [configure]

/-- C6 counterexample: in a host-build execution where the `all-binutils`
invocation fails, `all-ld` is not invoked even though the build targets
the host, so "`all-ld` is invoked if and only if the build targets the
host" does not hold of every execution. -/
theorem c6_counterexample :
    ¬ ("all-ld" ∈ compileMakeTargets true (fun _ => false) ↔ true = true) := by
  decide

/-- C6 amended: in every execution `all-binutils` is invoked first;
whenever `all-gdb` is invoked it comes directly after `all-binutils`;
`all-ld` is invoked only on host builds; and in executions where the
preceding invocations succeed, the trace is exactly `all-binutils`,
`all-gdb`, followed by `all-ld` exactly when the build targets the
host. -/
theorem c6_compile_order (host : Bool) (res : String → Bool) :
    (compileMakeTargets host res).head? = some "all-binutils" ∧
    ("all-gdb" ∈ compileMakeTargets host res →
      (compileMakeTargets host res).take 2 = ["all-binutils", "all-gdb"]) ∧
    ("all-ld" ∈ compileMakeTargets host res → host = true) ∧
    (res "all-binutils" = true → res "all-gdb" = true →
      compileMakeTargets host res =
        if host then ["all-binutils", "all-gdb", "all-ld"]
        else ["all-binutils", "all-gdb"]) := by
  cases host <;> cases hb : res "all-binutils" <;>
    cases hg : res "all-gdb" <;> simp [compileMakeTargets, hb, hg]

/-- Witness for `c6_compile_order`: a successful host execution runs all
three targets in order. -/
theorem c6_compile_order_witness :
    compileMakeTargets true (fun _ => true) =
      ["all-binutils", "all-gdb", "all-ld"] := by
  simpa using (c6_compile_order true (fun _ => true)).2.2.2 rfl rfl

/-- C7: for every cross (non-host) target, after `setup` the configure
argument list contains `--without-python` and `--without-expat`, and the
common compile flags list contains `-static`. -/
theorem c7_cross_flags (cfg : SetupConfig) (st : ProjectState)
    (h : cfg.compiling_for_host = false) :
    "--without-python" ∈ (setup cfg st).configure_args ∧
    "--without-expat" ∈ (setup cfg st).configure_args ∧
    "-static" ∈ (setup cfg st).COMMON_FLAGS := by
  cases hd : cfg.should_include_debug_info <;>
    cases hg : cfg.make_command == "gmake" <;>
      simp [setup, h, hd, hg]

/-- A sample cross-compilation setup configuration (for the witness of
`c7_cross_flags`). -/
def crossSetupConfigC7 : SetupConfig :=
  { compiling_for_host := false, is_macos := false,
    should_include_debug_info := false, make_command := "make",
    install_dir := "/output/sdk", install_prefix_dir := "/usr/local",
    sdk_bindir := "/output/sdk/bin", which_false := "/bin/false",
    sys_executable := "/usr/bin/python3", host_CC := "/usr/bin/cc",
    host_CXX := "/usr/bin/c++" }

/-- An empty project state (for witnesses): nothing accumulated before
`setup` runs. -/
def emptyProjectStateC7 : ProjectState :=
  { configure_args := [], configure_environment := [],
    common_warning_flags := [], cross_warning_flags := [],
    CXXFLAGS := [], COMMON_FLAGS := [], LDFLAGS := [], make_env := [] }

/-- Witness for `c7_cross_flags` at a concrete cross configuration. -/
theorem c7_cross_flags_witness :
    crossSetupConfigC7.compiling_for_host = false ∧
    ("--without-python" ∈
        (setup crossSetupConfigC7 emptyProjectStateC7).configure_args ∧
     "--without-expat" ∈
        (setup crossSetupConfigC7 emptyProjectStateC7).configure_args ∧
     "-static" ∈ (setup crossSetupConfigC7 emptyProjectStateC7).COMMON_FLAGS) :=
  ⟨rfl, c7_cross_flags crossSetupConfigC7 emptyProjectStateC7 rfl⟩

/-- A string starting with `p` cannot equal a string whose character list
does not start with `p`. -/
theorem append_ne_of_not_prefix (p s t : String)
    (h : ¬ p.data <+: t.data) : p ++ s ≠ t := by
  intro he
  apply h
  rw [← he, String.data_append]
  exact List.prefix_append p.data s.data

/-- Variant of `append_ne_of_not_prefix` for `p ++ s ++ q`. -/
theorem append3_ne_of_not_prefix (p s q t : String)
    (h : ¬ p.data <+: t.data) : p ++ s ++ q ≠ t := by
  intro he
  apply h
  rw [← he, String.data_append, String.data_append, List.append_assoc]
  exact List.prefix_append p.data (s.data ++ q.data)

/-- C8: on a host build on a non-macOS host, after `setup` the configure
argument list contains `--enable-ld=yes` and — provided the inherited
base-class setup did not put it there — does not contain `--disable-ld`. -/
theorem c8_host_enable_ld (cfg : SetupConfig) (st : ProjectState)
    (hh : cfg.compiling_for_host = true) (hm : cfg.is_macos = false)
    (h0 : "--disable-ld" ∉ st.configure_args) :
    "--enable-ld=yes" ∈ (setup cfg st).configure_args ∧
    "--disable-ld" ∉ (setup cfg st).configure_args := by
  cases hd : cfg.should_include_debug_info <;>
    cases hg : cfg.make_command == "gmake" <;>
      simp [setup, hh, hm, hd, hg] <;>
      refine ⟨h0, ?_, ?_, ?_, ?_, ?_⟩ <;>
      first
        | exact fun he => append3_ne_of_not_prefix _ _ _ _ (by decide) he.symm
        | exact fun he => append_ne_of_not_prefix _ _ _ (by decide) he.symm

/-- A sample host setup configuration (for the witness of
`c8_host_enable_ld`). -/
def hostSetupConfigC8 : SetupConfig :=
  { compiling_for_host := true, is_macos := false,
    should_include_debug_info := true, make_command := "gmake",
    install_dir := "/output/sdk", install_prefix_dir := "/usr/local",
    sdk_bindir := "/output/sdk/bin", which_false := "/bin/false",
    sys_executable := "/usr/bin/python3", host_CC := "/usr/bin/cc",
    host_CXX := "/usr/bin/c++" }

/-- An empty project state (for the witness of `c8_host_enable_ld`). -/
def emptyProjectStateC8 : ProjectState :=
  { configure_args := [], configure_environment := [],
    common_warning_flags := [], cross_warning_flags := [],
    CXXFLAGS := [], COMMON_FLAGS := [], LDFLAGS := [], make_env := [] }

/-- Witness for `c8_host_enable_ld` at a concrete host configuration. -/
theorem c8_host_enable_ld_witness :
    (hostSetupConfigC8.compiling_for_host = true ∧
     hostSetupConfigC8.is_macos = false ∧
     "--disable-ld" ∉ emptyProjectStateC8.configure_args) ∧
    ("--enable-ld=yes" ∈
        (setup hostSetupConfigC8 emptyProjectStateC8).configure_args ∧
     "--disable-ld" ∉
        (setup hostSetupConfigC8 emptyProjectStateC8).configure_args) :=
  ⟨⟨rfl, rfl, by decide⟩,
   c8_host_enable_ld hostSetupConfigC8 emptyProjectStateC8 rfl rfl
     (by decide)⟩

/-- Pointwise effect of the enter loop body at the program itself: the
entry is gone afterwards (either it was renamed away or it never
existed). -/
theorem enterStep_prog (d : String → Bool) (p n : String) (h1 : n = p)
    (h2 : p ≠ p ++ ".backup") : enterStep false d p n = false := by
  subst h1
  cases hp : d n <;> simp [enterStep, run_mv, mvFile, hp, h2]

/-- Pointwise effect of the enter loop body at the backup name: it exists
afterwards if the program did (renamed over it) or if it already
existed. -/
theorem enterStep_backup (d : String → Bool) (p b : String)
    (hb : b = p ++ ".backup") :
    enterStep false d p b = (d p || d b) := by
  subst hb
  cases hp : d p <;> simp [enterStep, run_mv, mvFile, hp]

/-- The enter loop body leaves every other directory entry unchanged. -/
theorem enterStep_other (d : String → Bool) (p n : String)
    (h1 : n ≠ p) (h2 : n ≠ p ++ ".backup") : enterStep false d p n = d n := by
  cases hp : d p <;> simp [enterStep, run_mv, mvFile, hp, h1, h2]

/-- Pointwise effect of the exit loop body at the backup name: it is gone
afterwards (either restored or it never existed). -/
theorem exitStep_backup (d : String → Bool) (p b : String)
    (hb : b = p ++ ".backup") (h2 : b ≠ p) :
    exitStep false d p b = false := by
  subst hb
  cases hv : d (p ++ ".backup") <;>
    simp [exitStep, run_mv, mvFile, hv, h2]

/-- Pointwise effect of the exit loop body at the program: it exists
afterwards if its backup did (restored over it) or if it already
existed. -/
theorem exitStep_prog (d : String → Bool) (p n : String) (h1 : n = p) :
    exitStep false d p n = (d (p ++ ".backup") || d n) := by
  subst h1
  cases hv : d (n ++ ".backup") <;> simp [exitStep, run_mv, mvFile, hv]

/-- The exit loop body leaves every other directory entry unchanged. -/
theorem exitStep_other (d : String → Bool) (p n : String)
    (h1 : n ≠ p) (h2 : n ≠ p ++ ".backup") : exitStep false d p n = d n := by
  cases hv : d (p ++ ".backup") <;>
    simp [exitStep, run_mv, mvFile, hv, h1, h2]

/-- C1: after any execution of `compile` — the `with` statement running
`__exit__` on success and on failure alike — the shadowed directory
contains no leftover `as.backup`, `ld.backup`, `objcopy.backup` or
`objdump.backup` entry, and each of the programs `as`, `ld`, `objcopy`,
`objdump` that existed in the directory before the call exists there again
afterwards.  Stated for a real (non-pretend) run: in pretend mode no
command executes and the directory is untouched. -/
theorem c1_compile_restores (d : String → Bool) :
    (∀ p ∈ shadowedPrograms,
      compileShadowedDir false d (p ++ ".backup") = false) ∧
    (∀ p ∈ shadowedPrograms,
      d p = true → compileShadowedDir false d p = true) := by
  refine ⟨?_, ?_⟩
  · intro p hp
    fin_cases hp <;>
      simp only [compileShadowedDir, shadowEnter, shadowExit,
        shadowedPrograms, List.foldl] <;>
      simp [enterStep_prog, enterStep_backup, enterStep_other,
        exitStep_prog, exitStep_backup, exitStep_other]
  · intro p hp hd
    fin_cases hp <;>
      simp only [compileShadowedDir, shadowEnter, shadowExit,
        shadowedPrograms, List.foldl] <;>
      simp [enterStep_prog, enterStep_backup, enterStep_other,
        exitStep_prog, exitStep_backup, exitStep_other, hd]

/-- Witness for `c1_compile_restores`: a directory holding all four
programs (and everything else) has no `as.backup` left and still holds
`ld` after a compile. -/
theorem c1_compile_restores_witness :
    ("as" ∈ shadowedPrograms ∧
      compileShadowedDir false (fun _ => true) ("as" ++ ".backup") = false) ∧
    ("ld" ∈ shadowedPrograms ∧ (fun _ => true) "ld" = true ∧
      compileShadowedDir false (fun _ => true) "ld" = true) :=
  ⟨⟨by decide, (c1_compile_restores (fun _ => true)).1 "as" (by decide)⟩,
   ⟨by decide, rfl,
    (c1_compile_restores (fun _ => true)).2 "ld" (by decide) rfl⟩⟩

/-- C2: on a CheriBSD CHERI-hybrid target, if the purecap root filesystem
exists (its `usr` subdirectory is present) then a missing `DESTDIR` in the
make-install environment is a fatal assertion failure, and with `DESTDIR`
present the install succeeds with exactly two `install-gdb` passes, the
second with `DESTDIR` set to the purecap rootfs; if the purecap root
filesystem does not exist, the install succeeds with a single pass, no
error, and a diagnostic message. -/
theorem c2_hybrid_install (cfg : InstallConfig)
    (hc : cfg.is_cheribsd = true)
    (hh : cfg.compiling_for_cheri_hybrid = true) :
    (cfg.purecap_rootfs_usr_exists = true →
      envLookup cfg.make_install_env "DESTDIR" = none →
      install cfg = Except.error "DESTDIR must be set in install") ∧
    (∀ v, cfg.purecap_rootfs_usr_exists = true →
      envLookup cfg.make_install_env "DESTDIR" = some v →
      ∃ evs, install cfg = Except.ok evs ∧
        installPasses evs =
          [("install-gdb", some v),
           ("install-gdb", some cfg.purecap_rootfs)]) ∧
    (cfg.purecap_rootfs_usr_exists = false →
      ∃ evs, install cfg = Except.ok evs ∧
        installPasses evs =
          [("install-gdb", envLookup cfg.make_install_env "DESTDIR")] ∧
        InstallEvent.infoMsg
          ("Not installing to purecap rootfs " ++ cfg.purecap_rootfs) ∈
            evs) := by
  refine ⟨?_, ?_, ?_⟩
  · intro hu hd
    simp [install, hc, hh, hu, hd]
  · intro v hu hd
    cases hhost : cfg.compiling_for_host <;>
      simp [install, installPasses, hc, hh, hu, hd, hhost,
        auxiliaryBinutilsInstalls, gdb_binutils]
  · intro hu
    cases hhost : cfg.compiling_for_host <;>
      simp [install, installPasses, hc, hh, hu, hhost,
        auxiliaryBinutilsInstalls, gdb_binutils]

/-- A sample CheriBSD hybrid install configuration with an existing
purecap rootfs and `DESTDIR` present (for the witness of
`c2_hybrid_install`). -/
def hybridInstallConfigC2 : InstallConfig :=
  { compiling_for_host := false, is_cheribsd := true,
    compiling_for_cheri_hybrid := true,
    purecap_rootfs := "/rootfs-purecap",
    purecap_rootfs_usr_exists := true,
    make_install_env := [("DESTDIR", "/rootfs-hybrid")],
    build_dir := "/build/gdb", install_dir := "/rootfs-hybrid/usr/local" }

/-- Witness for `c2_hybrid_install` at `hybridInstallConfigC2`: the
second pass targets the purecap rootfs. -/
theorem c2_hybrid_install_witness :
    ∃ evs, install hybridInstallConfigC2 = Except.ok evs ∧
      installPasses evs =
        [("install-gdb", some "/rootfs-hybrid"),
         ("install-gdb", some "/rootfs-purecap")] :=
  (c2_hybrid_install hybridInstallConfigC2 rfl rfl).2.1
    "/rootfs-hybrid" rfl rfl

/-- C4 counterexample: among the auxiliary binutils copies a host
`install` performs, the number whose build-output name differs from its
installed name is three (`cxxfilt` → `gc++filt`, `nm-new` → `gnm`,
`strip-new` → `gstrip`), not exactly two as claimed. -/
theorem c4_counterexample :
    renamedAuxiliaryCount ≠ 2 ∧ renamedAuxiliaryCount = 3 := by
  decide

/-- C4 amended: when compiling for the host, `install` copies all eight
auxiliary binutils outputs from the build directory into the installation
bin directory under their `g`-prefixed names; the full copied set is the
eleven auxiliary binutils copies plus the two linker copies, and exactly
three (not two) of the auxiliary copies have build-output names that
differ from their installed names. -/
theorem c4_host_binutils (cfg : InstallConfig)
    (hh : cfg.compiling_for_host = true)
    (hy : cfg.compiling_for_cheri_hybrid = false) :
    ∃ evs, install cfg = Except.ok evs ∧
      (∀ u ∈ gdb_binutils,
        (cfg.build_dir ++ "/binutils/" ++ u,
         cfg.install_dir ++ "/bin/" ++ ("g" ++ u)) ∈
          installedFilePairs evs) ∧
      installedFilePairs evs =
        (auxiliaryBinutilsInstalls.map fun p =>
          (cfg.build_dir ++ "/binutils/" ++ p.1,
           cfg.install_dir ++ "/bin/" ++ p.2)) ++
        [(cfg.build_dir ++ "/ld/ld-new", cfg.install_dir ++ "/bin/ld.bfd"),
         (cfg.build_dir ++ "/ld/ld-new",
          cfg.install_dir ++ "/bin/gld.bfd")] ∧
      renamedAuxiliaryCount = 3 := by
  refine ⟨[InstallEvent.makeInstall "install-gdb"
        (envLookup cfg.make_install_env "DESTDIR")] ++
      [] ++
      ((auxiliaryBinutilsInstalls.map fun p =>
          InstallEvent.installFile (cfg.build_dir ++ "/binutils/" ++ p.1)
            (cfg.install_dir ++ "/bin/" ++ p.2)) ++
        [InstallEvent.installFile (cfg.build_dir ++ "/ld/ld-new")
           (cfg.install_dir ++ "/bin/ld.bfd"),
         InstallEvent.installFile (cfg.build_dir ++ "/ld/ld-new")
           (cfg.install_dir ++ "/bin/gld.bfd")]), ?_, ?_, ?_, ?_⟩
  · simp [install, hh, hy]
  · intro u hu
    fin_cases hu <;>
      simp [installedFilePairs, auxiliaryBinutilsInstalls, gdb_binutils]
  · simp [installedFilePairs, auxiliaryBinutilsInstalls, gdb_binutils]
  · decide

/-- A sample host install configuration (for the witness of
`c4_host_binutils`). -/
def hostInstallConfigC4 : InstallConfig :=
  { compiling_for_host := true, is_cheribsd := false,
    compiling_for_cheri_hybrid := false,
    purecap_rootfs := "", purecap_rootfs_usr_exists := false,
    make_install_env := [("DESTDIR", "/output/sdk")],
    build_dir := "/build/gdb", install_dir := "/output/sdk" }

/-- Witness for `c4_host_binutils` at `hostInstallConfigC4`. -/
theorem c4_host_binutils_witness :
    ∃ evs, install hostInstallConfigC4 = Except.ok evs ∧
      (∀ u ∈ gdb_binutils,
        (hostInstallConfigC4.build_dir ++ "/binutils/" ++ u,
         hostInstallConfigC4.install_dir ++ "/bin/" ++ ("g" ++ u)) ∈
          installedFilePairs evs) ∧
      installedFilePairs evs =
        (auxiliaryBinutilsInstalls.map fun p =>
          (hostInstallConfigC4.build_dir ++ "/binutils/" ++ p.1,
           hostInstallConfigC4.install_dir ++ "/bin/" ++ p.2)) ++
        [(hostInstallConfigC4.build_dir ++ "/ld/ld-new",
          hostInstallConfigC4.install_dir ++ "/bin/ld.bfd"),
         (hostInstallConfigC4.build_dir ++ "/ld/ld-new",
          hostInstallConfigC4.install_dir ++ "/bin/gld.bfd")] ∧
      renamedAuxiliaryCount = 3 :=
  c4_host_binutils hostInstallConfigC4 rfl rfl

end CheriGdb
